import Mathlib

set_option maxHeartbeats 1000000

/-!
Shallow embedding of the `v1alpha1` API package of the cue-flux-controller
repository (`src/api/v1alpha1/cueinstance_types.go`): the `CueInstance`
data model, the duration accessors `GetTimeout` / `GetRetryInterval`, the
message truncation helper `trimString`, and the status commit helpers
`SetCueInstanceReadiness`, `CueInstanceNotReady`,
`CueInstanceNotReadyInventory`, `CueInstanceReadyInventory`.

Go strings are modelled as lists of characters, `time.Duration` as an
integer count of nanoseconds, and nil-able pointers as `Option`.
-/

namespace CueFlux

/-- A Go string, modelled as its list of characters. -/
abbrev GoString := List Char

/-- `time.Duration`: an integer number of nanoseconds. -/
abbrev Duration := Int

/-- `time.Second`: one second in nanoseconds. -/
def second : Duration := 1000000000

/-- `MaxConditionMessageLength = 20000` from `cueinstance_types.go`. -/
def MaxConditionMessageLength : Nat := 20000

/-- `ValidationMode` is a string type in the source (`Ignore`, `Audit`, `Drop`, `Fail`). -/
abbrev ValidationMode := GoString

/-- `IgnorePolicy ValidationMode = "Ignore"`. -/
def IgnorePolicy : ValidationMode := "Ignore".toList

/-- `AuditPolicy ValidationMode = "Audit"`. -/
def AuditPolicy : ValidationMode := "Audit".toList

/-- `DropPolicy ValidationMode = "Drop"`. -/
def DropPolicy : ValidationMode := "Drop".toList

/-- `FailPolicy ValidationMode = "Fail"`. -/
def FailPolicy : ValidationMode := "Fail".toList

/-- `metav1.ConditionStatus`: the ternary condition status. -/
inductive ConditionStatus where
  | conditionTrue
  | conditionFalse
  | conditionUnknown
deriving DecidableEq, Repr

/-- `metav1.Condition`, restricted to the fields the status helpers write
(`LastTransitionTime` is wall-clock time and not modelled). -/
structure Condition where
  condType : GoString
  status : ConditionStatus
  reason : GoString
  message : GoString
deriving DecidableEq, Repr

/-- `meta.ReadyCondition = "Ready"` from `fluxcd/pkg/apis/meta`. -/
def ReadyCondition : GoString := "Ready".toList

/-- `TagVar`: a tag variable with a required name and optional value. -/
structure TagVar where
  name : GoString
  value : GoString
deriving DecidableEq, Repr

/-- `Validation`: `{Mode, Schema, Type}`. -/
structure Validation where
  mode : ValidationMode
  schema : GoString
  valType : GoString
deriving DecidableEq, Repr

/-- `KubeConfig`: reference (by secret name) to a kubeconfig secret. -/
structure KubeConfig where
  secretRefName : GoString
deriving DecidableEq, Repr

/-- Modelled from the spec: `CrossNamespaceSourceReference` (its Go file is
not among the visible sources); §6 gives the reference as `{kind, name}`
with an optional namespace. -/
structure CrossNamespaceSourceReference where
  kind : GoString
  name : GoString
  namespaceName : GoString
deriving DecidableEq, Repr

/-- `dependency.CrossNamespaceDependencyReference` from `fluxcd/pkg/runtime`:
a name plus optional namespace. -/
structure CrossNamespaceDependencyReference where
  name : GoString
  namespaceName : GoString
deriving DecidableEq, Repr

/-- Modelled from the spec: `ResourceRef` (the inventory Go file is not among
the visible sources); §3 gives the flat identity tuple
`{group, version, kind, namespace, name}`. -/
structure ResourceRef where
  group : GoString
  version : GoString
  kind : GoString
  namespaceName : GoString
  name : GoString
deriving DecidableEq, Repr

/-- Modelled from the spec: `ResourceInventory` (the inventory Go file is not
among the visible sources); §3 gives `{Entries: []ResourceRef}`. -/
structure ResourceInventory where
  entries : List ResourceRef
deriving DecidableEq, Repr

/-- `CueInstanceSpec`: the desired state of a `CueInstance`. -/
structure CueInstanceSpec where
  interval : Duration
  sourceRef : CrossNamespaceSourceReference
  root : GoString
  path : GoString
  pkg : GoString
  tags : List TagVar
  tagVars : List TagVar
  exprs : List GoString
  dependsOn : List CrossNamespaceDependencyReference
  prune : Bool
  retryInterval : Option Duration
  timeout : Option Duration
  suspend : Bool
  serviceAccountName : GoString
  kubeConfig : Option KubeConfig
  force : Bool
  validate : Option Validation
deriving DecidableEq, Repr

/-- `CueInstanceStatus`: the observed state of a `CueInstance`
(`meta.ReconcileRequestStatus` contributes `LastHandledReconcileAt`). -/
structure CueInstanceStatus where
  lastHandledReconcileAt : GoString
  observedGeneration : Int
  conditions : List Condition
  lastAppliedRevision : GoString
  lastAttemptedRevision : GoString
  inventory : Option ResourceInventory
deriving DecidableEq, Repr

/-- `CueInstance`: object metadata (the fields the helpers read), spec and status. -/
structure CueInstance where
  name : GoString
  namespaceName : GoString
  generation : Int
  spec : CueInstanceSpec
  status : CueInstanceStatus
deriving DecidableEq, Repr

/-- `GetTimeout`:
`duration := Interval − 30s; if Timeout ≠ nil { duration = Timeout };
if duration < 30s { return 30s }; return duration`. -/
def CueInstance.GetTimeout (k : CueInstance) : Duration :=
  let d := k.spec.interval - 30 * second
  let d := match k.spec.timeout with
    | some t => t
    | none => d
  if d < 30 * second then 30 * second else d

/-- `GetRetryInterval`: `RetryInterval` when set, else `Interval`. -/
def CueInstance.GetRetryInterval (k : CueInstance) : Duration :=
  match k.spec.retryInterval with
  | some r => r
  | none => k.spec.interval

/-- `trimString(str, limit)`: `str` when `len(str) ≤ limit`, else
`str[0:limit] + "..."`. -/
def trimString (str : GoString) (limit : Nat) : GoString :=
  if str.length ≤ limit then str
  else str.take limit ++ "...".toList

/-- `apimeta.FindStatusCondition`: first condition with the given type. -/
def findStatusCondition : List Condition → GoString → Option Condition
  | [], _ => none
  | c :: cs, t => if c.condType = t then some c else findStatusCondition cs t

/-- `apimeta.SetStatusCondition`: overwrite the first condition with the new
condition's type, or append when absent (`LastTransitionTime` not modelled). -/
def setStatusCondition (conds : List Condition) (c : Condition) : List Condition :=
  match conds with
  | [] => [c]
  | x :: xs => if x.condType = c.condType then c :: xs else x :: setStatusCondition xs c

/-- `meta.SetResourceCondition` from `fluxcd/pkg/apis/meta`: build a condition
from the arguments and set it on the status conditions of the object. -/
def SetResourceCondition (k : CueInstance) (condition : GoString)
    (status : ConditionStatus) (reason message : GoString) : CueInstance :=
  { k with status := { k.status with
      conditions := setStatusCondition k.status.conditions
        ⟨condition, status, reason, message⟩ } }

/-- `CueInstanceProgressing`: reset to a single-purpose Unknown Ready condition. -/
def CueInstanceProgressing (k : CueInstance) (message : GoString) : CueInstance :=
  SetResourceCondition k ReadyCondition .conditionUnknown "Progressing".toList message

/-- `SetCueInstanceReadiness`: set the Ready condition (message trimmed to
`MaxConditionMessageLength`), `ObservedGeneration := Generation`,
`LastAttemptedRevision := revision`. -/
def SetCueInstanceReadiness (k : CueInstance) (status : ConditionStatus)
    (reason message revision : GoString) : CueInstance :=
  let k := SetResourceCondition k ReadyCondition status reason
    (trimString message MaxConditionMessageLength)
  { k with status := { k.status with
      observedGeneration := k.generation
      lastAttemptedRevision := revision } }

/-- `CueInstanceNotReady`: failed attempt; readiness with `ConditionFalse`
(the message already trimmed at the call site), then re-set
`LastAttemptedRevision` when the revision is non-empty. -/
def CueInstanceNotReady (k : CueInstance) (revision reason message : GoString) : CueInstance :=
  let k := SetCueInstanceReadiness k .conditionFalse reason
    (trimString message MaxConditionMessageLength) revision
  if revision ≠ [] then
    { k with status := { k.status with lastAttemptedRevision := revision } }
  else k

/-- `CueInstanceNotReadyInventory`: failed attempt that also overwrites
`Status.Inventory` with its argument. -/
def CueInstanceNotReadyInventory (k : CueInstance) (inventory : Option ResourceInventory)
    (revision reason message : GoString) : CueInstance :=
  let k := SetCueInstanceReadiness k .conditionFalse reason
    (trimString message MaxConditionMessageLength) revision
  let k := if revision ≠ [] then
    { k with status := { k.status with lastAttemptedRevision := revision } }
  else k
  { k with status := { k.status with inventory := inventory } }

/-- `CueInstanceReadyInventory`: successful attempt; readiness with
`ConditionTrue`, then `Status.Inventory := inventory` and
`Status.LastAppliedRevision := revision`. -/
def CueInstanceReadyInventory (k : CueInstance) (inventory : Option ResourceInventory)
    (revision reason message : GoString) : CueInstance :=
  let k := SetCueInstanceReadiness k .conditionTrue reason
    (trimString message MaxConditionMessageLength) revision
  { k with status := { k.status with
      inventory := inventory
      lastAppliedRevision := revision } }

/-- The Ready condition of an instance, when present. -/
def readyConditionOf (k : CueInstance) : Option Condition :=
  findStatusCondition k.status.conditions ReadyCondition

/-! Concrete instances used to evaluate the definitions on explicit inputs. -/

/-- A concrete source reference. -/
def exampleSourceRef : CrossNamespaceSourceReference :=
  ⟨"GitRepository".toList, "app".toList, []⟩

/-- A concrete spec: interval five minutes, no retry interval, no timeout. -/
def exampleSpec : CueInstanceSpec :=
  { interval := 300 * second
    sourceRef := exampleSourceRef
    root := []
    path := []
    pkg := []
    tags := []
    tagVars := []
    exprs := []
    dependsOn := []
    prune := true
    retryInterval := none
    timeout := none
    suspend := false
    serviceAccountName := []
    kubeConfig := none
    force := false
    validate := none }

/-- A concrete status with a previously attempted and applied revision and no inventory. -/
def exampleStatus : CueInstanceStatus :=
  { lastHandledReconcileAt := []
    observedGeneration := 1
    conditions := []
    lastAppliedRevision := "main/abc".toList
    lastAttemptedRevision := "main/abc".toList
    inventory := none }

/-- A concrete instance at generation 2. -/
def exampleInstance : CueInstance :=
  { name := "app".toList
    namespaceName := "default".toList
    generation := 2
    spec := exampleSpec
    status := exampleStatus }

/-- A concrete inventory entry. -/
def exampleRef : ResourceRef :=
  ⟨"apps".toList, "v1".toList, "Deployment".toList, "default".toList, "app".toList⟩

/-- A concrete one-entry inventory. -/
def exampleInventory : ResourceInventory := ⟨[exampleRef]⟩

/-- The example instance with an explicit timeout of 10 seconds. -/
def exampleShortTimeout : CueInstance :=
  { exampleInstance with spec := { exampleSpec with timeout := some (10 * second) } }

/-- The example instance with an explicit retry interval of 42 seconds. -/
def exampleRetry : CueInstance :=
  { exampleInstance with spec := { exampleSpec with retryInterval := some (42 * second) } }

/-! Helper lemmas shared by the claim theorems. -/

/-- Setting a condition makes it the one found for its type. -/
theorem findStatusCondition_set (conds : List Condition) (c : Condition) :
    findStatusCondition (setStatusCondition conds c) c.condType = some c := by
  induction conds with
  | nil => simp [setStatusCondition, findStatusCondition]
  | cons x xs ih =>
    by_cases h : x.condType = c.condType
    · simp [setStatusCondition, findStatusCondition, h]
    · simp [setStatusCondition, findStatusCondition, h, ih]

/-- The ellipsis marker has three characters. -/
theorem length_ellipsis : ("...".toList).length = 3 := rfl

/-- A string over the limit trims to exactly limit-plus-three characters. -/
theorem length_trimString_of_lt (s : GoString) (L : Nat) (h : L < s.length) :
    (trimString s L).length = L + 3 := by
  rw [trimString, if_neg (by omega)]
  rw [List.length_append, List.length_take, length_ellipsis]
  omega

/-- Truncation is idempotent. -/
theorem trimString_idem (s : GoString) (L : Nat) :
    trimString (trimString s L) L = trimString s L := by
  by_cases h : s.length ≤ L
  · have hs : trimString s L = s := by rw [trimString, if_pos h]
    rw [hs]; exact hs
  · have h1 : L < s.length := by omega
    have hinner : trimString s L = s.take L ++ "...".toList := by
      rw [trimString, if_neg h]
    have htake : (s.take L).length = L := by
      rw [List.length_take]; omega
    have hlen : (s.take L ++ "...".toList).length = L + 3 := by
      rw [List.length_append, htake, length_ellipsis]
    rw [hinner, trimString, if_neg (by omega)]
    rw [List.take_left' htake]

/-- A readiness commit stores the trimmed message in the Ready condition. -/
theorem readyConditionOf_set (k : CueInstance) (st : ConditionStatus)
    (reason message revision : GoString) :
    readyConditionOf (SetCueInstanceReadiness k st reason message revision)
      = some ⟨ReadyCondition, st, reason, trimString message MaxConditionMessageLength⟩ := by
  show findStatusCondition
      (setStatusCondition k.status.conditions
        ⟨ReadyCondition, st, reason, trimString message MaxConditionMessageLength⟩)
      ReadyCondition = _
  exact findStatusCondition_set k.status.conditions _

/-- The readiness commit a failure helper performs before its own updates. -/
def notReadyBase (k : CueInstance) (rev reason msg : GoString) : CueInstance :=
  SetCueInstanceReadiness k .conditionFalse reason
    (trimString msg MaxConditionMessageLength) rev

/-- The guard re-setting the attempted revision is redundant: `CueInstanceNotReady`
equals the underlying readiness commit in both branches. -/
theorem CueInstanceNotReady_eq (k : CueInstance) (rev reason msg : GoString) :
    CueInstanceNotReady k rev reason msg = notReadyBase k rev reason msg := by
  unfold CueInstanceNotReady notReadyBase
  by_cases hr : rev = []
  · simp [hr]
  · simp [hr, SetCueInstanceReadiness, SetResourceCondition]

/-- `CueInstanceNotReadyInventory` equals the underlying readiness commit with
the inventory field overwritten. -/
theorem CueInstanceNotReadyInventory_eq (k : CueInstance) (inv : Option ResourceInventory)
    (rev reason msg : GoString) :
    CueInstanceNotReadyInventory k inv rev reason msg
      = { notReadyBase k rev reason msg with
          status := { (notReadyBase k rev reason msg).status with inventory := inv } } := by
  unfold CueInstanceNotReadyInventory notReadyBase
  by_cases hr : rev = []
  · simp [hr]
  · simp [hr, SetCueInstanceReadiness, SetResourceCondition]

/-- Overwriting the inventory does not change the Ready condition. -/
theorem readyConditionOf_inventory_update (x : CueInstance) (inv : Option ResourceInventory) :
    readyConditionOf { x with status := { x.status with inventory := inv } }
      = readyConditionOf x := rfl

/-- Ready condition after the success commit: status True and single-trimmed message. -/
theorem readyConditionOf_ReadyInventory (k : CueInstance) (inv : Option ResourceInventory)
    (rev reason msg : GoString) :
    readyConditionOf (CueInstanceReadyInventory k inv rev reason msg)
      = some ⟨ReadyCondition, .conditionTrue, reason,
          trimString msg MaxConditionMessageLength⟩ := by
  have h1 : readyConditionOf (CueInstanceReadyInventory k inv rev reason msg)
      = readyConditionOf (SetCueInstanceReadiness k .conditionTrue reason
          (trimString msg MaxConditionMessageLength) rev) := rfl
  rw [h1, readyConditionOf_set, trimString_idem]

/-! Claim theorems. -/

/-- C1: counterexample — the failure commit `CueInstanceNotReadyInventory` stores a
Ready=False condition yet changes `Status.Inventory` from `none` to the supplied
inventory, so a failure commit does not leave the inventory at its previous value. -/
theorem C1_counterexample :
    (CueInstanceNotReadyInventory exampleInstance (some exampleInventory)
        "main/def".toList "ApplyFailed".toList "apply failed".toList).status.inventory
      ≠ exampleInstance.status.inventory
    ∧ (readyConditionOf (CueInstanceNotReadyInventory exampleInstance (some exampleInventory)
        "main/def".toList "ApplyFailed".toList "apply failed".toList)).map Condition.status
      = some ConditionStatus.conditionFalse := by
  decide

/-- C1 (amended): `Status.LastAppliedRevision` is updated only by the successful
commit `CueInstanceReadyInventory` — both failure commits leave it unchanged — but
`Status.Inventory` is overwritten by the failure commit `CueInstanceNotReadyInventory`
as well as by the success commit; only `CueInstanceNotReady` leaves the inventory
at its previous value. -/
theorem C1_amended (k : CueInstance) (inv : Option ResourceInventory)
    (rev reason msg : GoString) :
    (CueInstanceNotReady k rev reason msg).status.lastAppliedRevision
        = k.status.lastAppliedRevision
    ∧ (CueInstanceNotReady k rev reason msg).status.inventory = k.status.inventory
    ∧ (CueInstanceNotReadyInventory k inv rev reason msg).status.lastAppliedRevision
        = k.status.lastAppliedRevision
    ∧ (CueInstanceNotReadyInventory k inv rev reason msg).status.inventory = inv
    ∧ (CueInstanceReadyInventory k inv rev reason msg).status.lastAppliedRevision = rev
    ∧ (CueInstanceReadyInventory k inv rev reason msg).status.inventory = inv := by
  refine ⟨?_, ?_, ?_, ?_, rfl, rfl⟩
  · rw [CueInstanceNotReady_eq]; rfl
  · rw [CueInstanceNotReady_eq]; rfl
  · rw [CueInstanceNotReadyInventory_eq]; rfl
  · rw [CueInstanceNotReadyInventory_eq]

/-- C2: counterexample — with an explicit `Spec.Timeout` of 10 seconds, `GetTimeout`
returns 30 seconds, not the configured 10 seconds. -/
theorem C2_counterexample :
    exampleShortTimeout.spec.timeout = some (10 * second)
    ∧ exampleShortTimeout.GetTimeout ≠ 10 * second := by
  decide

/-- C2 (amended): when `Spec.Timeout` is set, `GetTimeout` returns its duration only
when that duration is at least 30 seconds; a configured timeout below 30 seconds is
floored to 30 seconds. -/
theorem C2_amended (k : CueInstance) (t : Duration) (h : k.spec.timeout = some t) :
    k.GetTimeout = if t < 30 * second then 30 * second else t := by
  simp [CueInstance.GetTimeout, h]

/-- C2 (amended) witness at the concrete 10-second-timeout instance. -/
theorem C2_amended_witness :
    exampleShortTimeout.spec.timeout = some (10 * second)
    ∧ exampleShortTimeout.GetTimeout
        = if (10 * second : Duration) < 30 * second then 30 * second else 10 * second :=
  ⟨by decide, C2_amended exampleShortTimeout (10 * second) (by decide)⟩

/-- C3: counterexample — a failure commit with an empty (unresolved) revision does
not keep the previous `Status.LastAttemptedRevision`: `SetCueInstanceReadiness`
overwrites it unconditionally, so the previously attempted revision is erased. -/
theorem C3_counterexample :
    exampleInstance.status.lastAttemptedRevision = "main/abc".toList
    ∧ (CueInstanceNotReady exampleInstance [] "BuildFailed".toList
        "build error".toList).status.lastAttemptedRevision
      ≠ exampleInstance.status.lastAttemptedRevision := by
  decide

/-- C3 (amended): every readiness commit sets `Status.LastAttemptedRevision` to the
revision argument, including the empty revision, which overwrites the previous
value with the empty string. -/
theorem C3_amended (k : CueInstance) (st : ConditionStatus)
    (reason msg rev : GoString) (inv : Option ResourceInventory) :
    (SetCueInstanceReadiness k st reason msg rev).status.lastAttemptedRevision = rev
    ∧ (CueInstanceNotReady k rev reason msg).status.lastAttemptedRevision = rev
    ∧ (CueInstanceNotReadyInventory k inv rev reason msg).status.lastAttemptedRevision = rev := by
  refine ⟨rfl, ?_, ?_⟩
  · rw [CueInstanceNotReady_eq]; rfl
  · rw [CueInstanceNotReadyInventory_eq]; rfl

/-- C4: `GetTimeout` always returns at least 30 seconds, and with no explicit
`Spec.Timeout` it returns `Spec.Interval − 30s` floored at 30 seconds. -/
theorem C4_confirmed (k : CueInstance) :
    30 * second ≤ k.GetTimeout
    ∧ (k.spec.timeout = none →
        k.GetTimeout = max (k.spec.interval - 30 * second) (30 * second)) := by
  constructor
  · cases h : k.spec.timeout <;> simp [CueInstance.GetTimeout, h] <;> split
    case _ h2 => exact le_refl _
    case _ h2 => exact not_lt.mp h2
    case _ h2 => exact le_refl _
    case _ h2 => exact not_lt.mp h2
  · intro h
    simp [CueInstance.GetTimeout, h]
    split
    case _ h2 => exact (max_eq_right (le_of_lt h2)).symm
    case _ h2 => exact (max_eq_left (not_lt.mp h2)).symm

/-- C4 witness at the concrete no-timeout instance. -/
theorem C4_witness :
    30 * second ≤ exampleInstance.GetTimeout
    ∧ exampleInstance.GetTimeout
        = max (exampleInstance.spec.interval - 30 * second) (30 * second) :=
  ⟨(C4_confirmed exampleInstance).1, (C4_confirmed exampleInstance).2 rfl⟩

/-- C5: the message stored in the Ready condition equals the original message when
its length is at most `MaxConditionMessageLength`, and otherwise the first 20000
characters followed by the ellipsis marker; no message is rejected. This holds for
`SetCueInstanceReadiness` and for the double-trimming `CueInstanceNotReady`. -/
theorem C5_confirmed (k : CueInstance) (st : ConditionStatus) (reason msg rev : GoString) :
    (readyConditionOf (SetCueInstanceReadiness k st reason msg rev)).map Condition.message
      = some (if msg.length ≤ MaxConditionMessageLength then msg
          else msg.take MaxConditionMessageLength ++ "...".toList)
    ∧ (readyConditionOf (CueInstanceNotReady k rev reason msg)).map Condition.message
      = some (if msg.length ≤ MaxConditionMessageLength then msg
          else msg.take MaxConditionMessageLength ++ "...".toList) := by
  have hts : trimString msg MaxConditionMessageLength
      = if msg.length ≤ MaxConditionMessageLength then msg
        else msg.take MaxConditionMessageLength ++ "...".toList := rfl
  constructor
  · rw [readyConditionOf_set]
    simp [hts]
  · rw [CueInstanceNotReady_eq]
    unfold notReadyBase
    rw [readyConditionOf_set, trimString_idem]
    simp [hts]

/-- C6: every readiness commit, success or failure, sets `Status.ObservedGeneration`
to the current `Generation` of the object. -/
theorem C6_confirmed (k : CueInstance) (st : ConditionStatus)
    (reason msg rev : GoString) (inv : Option ResourceInventory) :
    (SetCueInstanceReadiness k st reason msg rev).status.observedGeneration = k.generation
    ∧ (CueInstanceNotReady k rev reason msg).status.observedGeneration = k.generation
    ∧ (CueInstanceNotReadyInventory k inv rev reason msg).status.observedGeneration
        = k.generation
    ∧ (CueInstanceReadyInventory k inv rev reason msg).status.observedGeneration
        = k.generation := by
  refine ⟨rfl, ?_, ?_, rfl⟩
  · rw [CueInstanceNotReady_eq]; rfl
  · rw [CueInstanceNotReadyInventory_eq]; rfl

/-- C7: `GetRetryInterval` returns `Spec.RetryInterval` when set, and
`Spec.Interval` otherwise. -/
theorem C7_confirmed (k : CueInstance) :
    (∀ r, k.spec.retryInterval = some r → k.GetRetryInterval = r)
    ∧ (k.spec.retryInterval = none → k.GetRetryInterval = k.spec.interval) := by
  constructor
  · intro r h
    simp [CueInstance.GetRetryInterval, h]
  · intro h
    simp [CueInstance.GetRetryInterval, h]

/-- C7 witness at concrete instances with and without a retry interval. -/
theorem C7_witness :
    exampleRetry.GetRetryInterval = 42 * second
    ∧ exampleInstance.GetRetryInterval = exampleInstance.spec.interval :=
  ⟨(C7_confirmed exampleRetry).1 (42 * second) rfl, (C7_confirmed exampleInstance).2 rfl⟩

/-- C8: a message strictly longer than `MaxConditionMessageLength` is stored with
length exactly 20003 — the cap plus the three-character ellipsis marker. -/
theorem C8_confirmed (s : GoString) (h : MaxConditionMessageLength < s.length) :
    (trimString s MaxConditionMessageLength).length = 20003 :=
  length_trimString_of_lt s MaxConditionMessageLength h

/-- C8 witness on a concrete 20001-character message. -/
theorem C8_witness :
    MaxConditionMessageLength < (List.replicate 20001 'a').length
    ∧ (trimString (List.replicate 20001 'a') MaxConditionMessageLength).length = 20003 :=
  ⟨by simp only [MaxConditionMessageLength, List.length_replicate]; omega,
   C8_confirmed (List.replicate 20001 'a')
     (by simp only [MaxConditionMessageLength, List.length_replicate]; omega)⟩

/-- C9: `trimString` is idempotent for every message and limit, so the double
truncation performed by the failure helpers stores exactly the single-trimmed
message in the Ready condition. -/
theorem C9_confirmed (s : GoString) (L : Nat) (k : CueInstance)
    (inv : Option ResourceInventory) (rev reason msg : GoString) :
    trimString (trimString s L) L = trimString s L
    ∧ readyConditionOf (CueInstanceNotReady k rev reason msg)
        = some ⟨ReadyCondition, .conditionFalse, reason,
            trimString msg MaxConditionMessageLength⟩
    ∧ readyConditionOf (CueInstanceNotReadyInventory k inv rev reason msg)
        = some ⟨ReadyCondition, .conditionFalse, reason,
            trimString msg MaxConditionMessageLength⟩ := by
  refine ⟨trimString_idem s L, ?_, ?_⟩
  · rw [CueInstanceNotReady_eq]
    unfold notReadyBase
    rw [readyConditionOf_set, trimString_idem]
  · rw [CueInstanceNotReadyInventory_eq, readyConditionOf_inventory_update]
    unfold notReadyBase
    rw [readyConditionOf_set, trimString_idem]

/-- C10: after the success commit, `Status.LastAppliedRevision` and
`Status.LastAttemptedRevision` both equal the committed revision, and the Ready
condition is True. -/
theorem C10_confirmed (k : CueInstance) (inv : Option ResourceInventory)
    (rev reason msg : GoString) :
    (CueInstanceReadyInventory k inv rev reason msg).status.lastAppliedRevision = rev
    ∧ (CueInstanceReadyInventory k inv rev reason msg).status.lastAttemptedRevision = rev
    ∧ (readyConditionOf (CueInstanceReadyInventory k inv rev reason msg)).map Condition.status
        = some ConditionStatus.conditionTrue := by
  refine ⟨rfl, rfl, ?_⟩
  rw [readyConditionOf_ReadyInventory]
  rfl

end CueFlux
